import Mathlib

/-!
Shallow embedding of the minigame-canvas-engine render/layout pipeline.

The embedding covers, from `src/unnamed/part_000` (the `_Layout` class):
the dirty-flag scheduler (`tickerFunc`, `reflow`, `repaint`, the `repaint`
event listener), the viewport bookkeeping (`updateViewPort`), hit testing
(`getChildByPos`) and the touch event handler (`eventHandler`); from
`src/src/components/image.js` the `src` setter; and from
`src/src/core/renderer/renderContextManager.js` the render-context
manager (`getChildrenGlRects`, `draw`, `release`, `setupScrollGl`, the
shared `canvasPool`).

Functions of the repository that live in files not present under `src/`
(`common/vd.js`: `layoutChildren`, `updateRealLayout`; `common/util.js`:
`isClick`) are modelled from the spec and say so in their doc comments.

Coordinates are rationals: the source works with JS numbers and the one
genuinely non-integer quantity, the viewport-to-renderport scale
`viewport.width / renderport.width`, is an exact division here.
-/

namespace Sched

/-- The two dirty flags of the `_Layout` singleton: `isDirty` (`needsLayout`,
set by geometry mutations) and `isNeedRepaint` (set by the `repaint` event
listener, part_000 lines 63-67). -/
structure Flags where
  isDirty : Bool
  isNeedRepaint : Bool
deriving Repr, DecidableEq

/-- The observable work a tick can perform, in the order the source issues
it: the TWEEN.update animation step, the external css-layout solver call,
the two layout passes, clearing the canvas, and the two draw walks. -/
inductive TickWork where
  | tweenUpdate
  | computeLayoutCall
  | layoutChildrenCall
  | updateRealLayoutCall
  | clearCanvasCall
  | renderChildrenCall
  | repaintChildrenCall
deriving Repr, DecidableEq

/-- Flag/work behaviour of `_Layout.reflow` (part_000 lines 153-189): it
invokes the solver, the two layout passes, clears the canvas, renders, and
ends with `this.isDirty = false`.  It never writes `isNeedRepaint`. -/
def reflow (f : Flags) : Flags × List TickWork :=
  ({ f with isDirty := false },
   [TickWork.computeLayoutCall, TickWork.layoutChildrenCall,
    TickWork.updateRealLayoutCall, TickWork.clearCanvasCall,
    TickWork.renderChildrenCall])

/-- Flag/work behaviour of `_Layout.repaint` (part_000 lines 220-225):
clear the canvas, set `isNeedRepaint` to false, repaint the children. -/
def repaint (f : Flags) : Flags × List TickWork :=
  ({ f with isNeedRepaint := false },
   [TickWork.clearCanvasCall, TickWork.repaintChildrenCall])

/-- `tickerFunc` (part_000 lines 79-86).  `TWEEN.update()` may mutate nodes
and thereby set dirty flags; it is passed in as an arbitrary flag
transformer `tween`.  Then: if `isDirty`, reflow; else if `isNeedRepaint`,
repaint; else nothing. -/
def tickerFunc (tween : Flags → Flags) (f : Flags) : Flags × List TickWork :=
  let f1 := tween f
  if f1.isDirty then
    let r := reflow f1
    (r.1, TickWork.tweenUpdate :: r.2)
  else if f1.isNeedRepaint then
    let r := repaint f1
    (r.1, TickWork.tweenUpdate :: r.2)
  else
    (f1, [TickWork.tweenUpdate])

/-- The `repaint` event listener installed in the `_Layout` constructor
(part_000 lines 65-67): receiving the event only sets `isNeedRepaint`. -/
def onRepaintEvent (f : Flags) : Flags :=
  { f with isNeedRepaint := true }

/-- The part of an `Image` node (src/src/components/image.js) the `src`
setter touches. -/
structure ImageNode where
  imgsrc : String
deriving Repr, DecidableEq

/-- The `src` setter (image.js lines 23-38): when the new value differs it
stores it and starts an async load whose callback emits `repaint`; when it
is unchanged nothing happens.  Returns the node and whether the load
callback will emit `repaint`. -/
def setSrc (node : ImageNode) (newValue : String) : ImageNode × Bool :=
  if newValue ≠ node.imgsrc then ({ node with imgsrc := newValue }, true)
  else (node, false)

/-- Assigning `Image.src` and delivering the resulting `repaint` event to
the `_Layout` listener: the flag effect of a paint-only mutation. -/
def applyImageSrcAssign (f : Flags) (node : ImageNode) (newValue : String) :
    Flags × ImageNode :=
  let r := setSrc node newValue
  ((if r.2 then onRepaintEvent f else f), r.1)

/-- Modelled from the spec: the setters that mark geometry dirty live in
`components/elements.js`, which is not under `src/`.  Spec section 4.3:
"Mutations that change geometry (size, position, add/remove child) must set
`needsLayout`". -/
def geometryMutation (f : Flags) : Flags :=
  { f with isDirty := true }

end Sched

namespace Geom

/-- The viewport rectangle handed to `updateViewPort`: physical pixel size
and the physical offset of the drawn canvas on screen. -/
structure Viewport where
  width : ℚ
  height : ℚ
  x : ℚ
  y : ℚ
deriving Repr, DecidableEq

/-- The `_Layout` state that `updateViewPort` establishes. -/
structure LayoutState where
  viewport : Viewport
  realX : ℚ
  realY : ℚ
  hasViewPortSet : Bool
deriving Repr, DecidableEq

/-- `_Layout.updateViewPort` (part_000 lines 104-116): stores the viewport
(each missing field of the argument would default to 0; the embedding takes
the fields as given rationals) and sets the root's `realLayoutBox` origin to
the viewport origin. -/
def updateViewPort (box : Viewport) : LayoutState :=
  { viewport := box, realX := box.x, realY := box.y, hasViewPortSet := true }

/-- One node's relative box as the external css-layout solver leaves it:
`layout.left/top` against the parent plus the resolved size. -/
structure LayoutBox where
  left : ℚ
  top : ℚ
  width : ℚ
  height : ℚ
deriving Repr, DecidableEq

/-- A solver-annotated node tree: the input of the two layout passes.  The
solver itself is an external collaborator, so its output is the starting
point of the embedding. -/
inductive LayoutNode : Type where
  | mk (layout : LayoutBox) (children : List LayoutNode)

/-- A node after the absolute pass: relative box plus accumulated absolute
offsets. -/
structure AbsBox where
  left : ℚ
  top : ℚ
  width : ℚ
  height : ℚ
  absoluteX : ℚ
  absoluteY : ℚ
deriving Repr, DecidableEq

inductive AbsNode : Type where
  | mk (box : AbsBox) (children : List AbsNode)

/-- A node after the real-pixel pass: all four coordinate frames. -/
structure ComputedBox where
  left : ℚ
  top : ℚ
  width : ℚ
  height : ℚ
  absoluteX : ℚ
  absoluteY : ℚ
  realX : ℚ
  realY : ℚ
  realWidth : ℚ
  realHeight : ℚ
deriving Repr, DecidableEq

inductive ComputedNode : Type where
  | mk (box : ComputedBox) (children : List ComputedNode)

/-- Modelled from the spec: `layoutChildren` lives in `common/vd.js`,
which is not under `src/`.  Spec section 4.2 step 2: "walk the tree
depth-first, for each node adding its parent's already-computed absolute
box origin to its relative offsets to produce absolute box", parents
strictly before children.  The walk runs over a child forest with the
parent's absolute origin as accumulator; the `_Layout` container
contributes origin 0. -/
def layoutChildren (parentAbsX parentAbsY : ℚ) : List LayoutNode → List AbsNode
  | [] => []
  | LayoutNode.mk lb cs :: rest =>
      AbsNode.mk
        { left := lb.left, top := lb.top, width := lb.width, height := lb.height,
          absoluteX := parentAbsX + lb.left, absoluteY := parentAbsY + lb.top }
        (layoutChildren (parentAbsX + lb.left) (parentAbsY + lb.top) cs)
      :: layoutChildren parentAbsX parentAbsY rest

/-- Modelled from the spec: `updateRealLayout` lives in `common/vd.js`,
which is not under `src/`.  Spec section 4.2 step 3: "a second pass
converts absolute boxes to real device-pixel boxes by multiplying by
`viewport.width / renderport.width` ... and offsetting by the viewport's
physical origin". -/
def updateRealLayout (scale vx vy : ℚ) : List AbsNode → List ComputedNode
  | [] => []
  | AbsNode.mk b cs :: rest =>
      ComputedNode.mk
        { left := b.left, top := b.top, width := b.width, height := b.height,
          absoluteX := b.absoluteX, absoluteY := b.absoluteY,
          realX := vx + b.absoluteX * scale, realY := vy + b.absoluteY * scale,
          realWidth := b.width * scale, realHeight := b.height * scale }
        (updateRealLayout scale vx vy cs)
      :: updateRealLayout scale vx vy rest

/-- The geometry of `_Layout.reflow` (part_000 lines 153-189): after the
solver has annotated the tree, take the renderport from the root element's
style width/height, run the absolute pass, then the real-pixel pass with
scale `viewport.width / renderport.width`.  (The same source function's
flag/work behaviour is `Sched.reflow`.) -/
def reflow (st : LayoutState) (rootStyleWidth rootStyleHeight : ℚ)
    (children : List LayoutNode) : List ComputedNode :=
  let renderportWidth := rootStyleWidth
  let _renderportHeight := rootStyleHeight
  let scale := st.viewport.width / renderportWidth
  updateRealLayout scale st.viewport.x st.viewport.y
    (layoutChildren 0 0 children)

/-- The invariant the amended claim C1 states, over a child forest whose
parent has real origin `(prx, pry)`: each node's real origin is the
parent's real origin plus the node's parent-relative offset times the
scale, equivalently the viewport origin plus the node's absolute offset
times the scale, and its real size is its size times the scale. -/
def RealInv (scale vx vy : ℚ) : ℚ → ℚ → List ComputedNode → Prop
  | _, _, [] => True
  | prx, pry, ComputedNode.mk b cs :: rest =>
      (b.realX = prx + b.left * scale ∧ b.realY = pry + b.top * scale
        ∧ b.realX = vx + b.absoluteX * scale ∧ b.realY = vy + b.absoluteY * scale
        ∧ b.realWidth = b.width * scale ∧ b.realHeight = b.height * scale
        ∧ RealInv scale vx vy b.realX b.realY cs)
      ∧ RealInv scale vx vy prx pry rest

/-- First box of a computed forest (all-zero box for an empty forest). -/
def firstBox : List ComputedNode → ComputedBox
  | [] => { left := 0, top := 0, width := 0, height := 0, absoluteX := 0,
            absoluteY := 0, realX := 0, realY := 0, realWidth := 0, realHeight := 0 }
  | ComputedNode.mk b _ :: _ => b

/-- Children of the first node of a computed forest. -/
def firstChildren : List ComputedNode → List ComputedNode
  | [] => []
  | ComputedNode.mk _ cs :: _ => cs

/-- Concrete 3-level solver output used against claim C1: a styled root
containing a child at relative offset (10, 20) containing a grandchild at
relative offset (5, 6). -/
def c1Tree : List LayoutNode :=
  [LayoutNode.mk { left := 0, top := 0, width := 100, height := 100 }
    [LayoutNode.mk { left := 10, top := 20, width := 50, height := 50 }
      [LayoutNode.mk { left := 5, top := 6, width := 20, height := 20 } []]]]

/-- The computed forest of `c1Tree` for a 100-wide renderport drawn into a
100-wide viewport whose physical origin is (7, 9). -/
def c1Computed : List ComputedNode :=
  reflow (updateViewPort { width := 100, height := 100, x := 7, y := 9 }) 100 100 c1Tree

end Geom

namespace Evt

/-- A node's on-screen rectangle in physical pixels (`realLayoutBox`), as
hit testing reads it. -/
structure RealBox where
  realX : ℚ
  realY : ℚ
  width : ℚ
  height : ℚ
deriving Repr, DecidableEq

/-- An element as the event router sees it: identity, real-pixel box,
children. -/
inductive Node : Type where
  | mk (id : Nat) (box : RealBox) (children : List Node)

def Node.id : Node → Nat
  | .mk i _ _ => i

def Node.box : Node → RealBox
  | .mk _ b _ => b

def Node.childList : Node → List Node
  | .mk _ _ cs => cs

/-- The containment test of `getChildByPos` (part_000 lines 238-239):
`realX <= x <= realX + width` and `realY <= y <= realY + height`. -/
def hitBox (box : RealBox) (x y : ℚ) : Bool :=
  (decide (box.realX ≤ x) && decide (x ≤ box.realX + box.width))
    && (decide (box.realY ≤ y) && decide (y ≤ box.realY + box.height))

/-- `_Layout.getChildByPos` (part_000 lines 231-246), over the child list of
the tree argument: every hit child is pushed onto the item list and, when it
has children, searched recursively; a child whose box misses the point is
skipped together with its whole subtree. -/
def getChildByPos (x y : ℚ) : List Node → List Node
  | [] => []
  | Node.mk i b cs :: rest =>
      (if hitBox b x y then
        Node.mk i b cs :: (if cs.length ≠ 0 then getChildByPos x y cs else [])
      else [])
      ++ getChildByPos x y rest

/-- Depth-first preorder of a forest: the order in which `getChildByPos`
visits nodes, and the reference order for "ancestors before
descendants". -/
def preorder : List Node → List Node
  | [] => []
  | Node.mk i b cs :: rest => Node.mk i b cs :: (preorder cs ++ preorder rest)

/-- A node of the forest is fully hit at `(x, y)` when its own box and the
box of every ancestor inside the forest contain the point. -/
inductive FullyHit (x y : ℚ) : List Node → Node → Prop
  | base {cs : List Node} {n : Node} :
      n ∈ cs → hitBox n.box x y = true → FullyHit x y cs n
  | step {cs : List Node} {c n : Node} :
      c ∈ cs → hitBox c.box x y = true → FullyHit x y c.childList n →
      FullyHit x y cs n

/-- The touch record the handler stores in `touchMsg`: coordinates and the
(possibly backfilled) time stamp. -/
structure TouchRec where
  pageX : ℚ
  pageY : ℚ
  timeStamp : ℚ
deriving Repr, DecidableEq

/-- `this.touchMsg`: the single pending gesture record, keyed by event
name in the source; only `touchstart` and `touchend` are ever written. -/
structure TouchMsg where
  touchstart : Option TouchRec
  touchend : Option TouchRec
deriving Repr, DecidableEq

/-- A raw JS touch point: any of its fields may be `undefined`. -/
structure RawTouch where
  pageX : Option ℚ
  pageY : Option ℚ
  timeStamp : Option ℚ
deriving Repr, DecidableEq

/-- An incoming touch/mouse event: optional `touches` and `changedTouches`
arrays, the event's own coordinates (mouse events), and its time stamp. -/
structure TouchEvent where
  touches : Option (List RawTouch)
  changedTouches : Option (List RawTouch)
  pageX : Option ℚ
  pageY : Option ℚ
  timeStamp : ℚ
deriving Repr, DecidableEq

/-- The extraction `(e.touches && e.touches[0]) || (e.changedTouches &&
e.changedTouches[0]) || e` (part_000 line 250): first element of the first
present non-empty array, else the event itself used as the touch point. -/
def extractTouch (e : TouchEvent) : RawTouch :=
  match e.touches.bind List.head? with
  | some t => t
  | none =>
    match e.changedTouches.bind List.head? with
    | some t => t
    | none => { pageX := e.pageX, pageY := e.pageY, timeStamp := some e.timeStamp }

/-- JS falsiness of an optional number: `undefined` or `0`. -/
def falsyQ : Option ℚ → Bool
  | none => true
  | some v => decide (v = 0)

/-- The four raw event kinds the router is bound to. -/
inductive EventName where
  | touchstart
  | touchmove
  | touchend
  | touchcancel
deriving Repr, DecidableEq

/-- What the router can emit on a node: the four raw kinds plus the
synthesized `click`. -/
inductive EmitName where
  | touchstart
  | touchmove
  | touchend
  | touchcancel
  | click
deriving Repr, DecidableEq

def EventName.toEmit : EventName → EmitName
  | .touchstart => EmitName.touchstart
  | .touchmove => EmitName.touchmove
  | .touchend => EmitName.touchend
  | .touchcancel => EmitName.touchcancel

/-- The `_Layout` state the event handler reads and writes: its own id
(the fallback target), the element forest with real-pixel boxes, and the
pending gesture record. -/
structure EvtLayout where
  id : Nat
  children : List Node
  touchMsg : TouchMsg

/-- Modelled from the spec: `isClick` lives in `common/util.js`, which is
not under `src/`.  Spec section 4.5: the recorded `touchstart` and the
`touchend` synthesize a `click` when they are "within a small configured
distance and elapsed-time threshold"; the thresholds are parameters of the
model. -/
def isClick (distThreshold timeThreshold : ℚ) (msg : TouchMsg) : Bool :=
  match msg.touchstart, msg.touchend with
  | some s, some e =>
      (decide (|e.pageX - s.pageX| ≤ distThreshold)
        && decide (|e.pageY - s.pageY| ≤ distThreshold))
        && decide (e.timeStamp - s.timeStamp < timeThreshold)
  | _, _ => false

/-- The delivery target: the last collected node, or the root when nothing
was hit (part_000 lines 264-268). -/
def dispatchTarget (l : EvtLayout) (x y : ℚ) : Nat :=
  match (getChildByPos x y l.children).getLast? with
  | some n => n.id
  | none => l.id

/-- The closure `touchEventHandler` returned by `_Layout.eventHandler`
(part_000 lines 248-279).  Returns the updated layout state and the emitted
events as `(target id, name)` pairs in emission order: the guard rejects a
touch with missing-or-zero `pageX`/`pageY`; the time stamp is backfilled
from the event when falsy; the primary event goes to the deepest hit node
(or the root); `touchstart`/`touchend` overwrite their slot of `touchMsg`;
a `touchend` that forms a click with the recorded `touchstart` additionally
emits `click` on the same target, after the primary event. -/
def touchEventHandler (distThreshold timeThreshold : ℚ) (eventName : EventName)
    (l : EvtLayout) (e : TouchEvent) : EvtLayout × List (Nat × EmitName) :=
  let touch := extractTouch e
  if falsyQ touch.pageX || falsyQ touch.pageY then
    (l, [])
  else
    let ts : ℚ :=
      match touch.timeStamp with
      | none => e.timeStamp
      | some v => if v = 0 then e.timeStamp else v
    let tr : TouchRec :=
      { pageX := touch.pageX.getD 0, pageY := touch.pageY.getD 0, timeStamp := ts }
    let target := dispatchTarget l tr.pageX tr.pageY
    let msg : TouchMsg :=
      if eventName = EventName.touchstart then { l.touchMsg with touchstart := some tr }
      else if eventName = EventName.touchend then { l.touchMsg with touchend := some tr }
      else l.touchMsg
    let emits :=
      [(target, eventName.toEmit)]
        ++ (if eventName = EventName.touchend
              && isClick distThreshold timeThreshold msg then
              [(target, EmitName.click)]
            else [])
    ({ l with touchMsg := msg }, emits)

/-- The spec's hit-testing example tree: a root (id 0) containing child A
(id 1) at real box (0,0,100,100) containing grandchild B (id 2) at real box
(10,10,20,20). -/
def exampleLayout : EvtLayout :=
  { id := 0,
    children :=
      [Node.mk 1 { realX := 0, realY := 0, width := 100, height := 100 }
        [Node.mk 2 { realX := 10, realY := 10, width := 20, height := 20 } []]],
    touchMsg := { touchstart := none, touchend := none } }

/-- A forest refuting the universally collected hit list of claim C4: child
A (id 1) sits at (200,200,10,10) while its child B (id 2) sits at
(0,0,100,100), so B's box contains (15,15) but A's does not. -/
def c4Forest : List Node :=
  [Node.mk 1 { realX := 200, realY := 200, width := 10, height := 10 }
    [Node.mk 2 { realX := 0, realY := 0, width := 100, height := 100 } []]]

/-- Layout state holding a recorded touchstart at (10,10), time 0: the
pending gesture claim C6 is about. -/
def c6Layout : EvtLayout :=
  { id := 0,
    children :=
      [Node.mk 1 { realX := 0, realY := 0, width := 100, height := 100 } []],
    touchMsg :=
      { touchstart := some { pageX := 10, pageY := 10, timeStamp := 0 },
        touchend := none } }

/-- A touchcancel arriving at (5,5), time 50. -/
def c6CancelEvent : TouchEvent :=
  { touches := some [{ pageX := some 5, pageY := some 5, timeStamp := some 50 }],
    changedTouches := none, pageX := none, pageY := none, timeStamp := 50 }

/-- A touchend arriving at (12,11), time 150. -/
def c6EndEvent : TouchEvent :=
  { touches := none,
    changedTouches := some [{ pageX := some 12, pageY := some 11, timeStamp := some 150 }],
    pageX := none, pageY := none, timeStamp := 150 }

/-- Layout state for the click-synthesis witness: one hit-testable child
(id 1) and a recorded touchstart at (10,10), time 0. -/
def c5Layout : EvtLayout :=
  { id := 0,
    children :=
      [Node.mk 1 { realX := 0, realY := 0, width := 100, height := 100 } []],
    touchMsg :=
      { touchstart := some { pageX := 10, pageY := 10, timeStamp := 0 },
        touchend := none } }

/-- The spec's in-threshold touchend: (12,11) at time 150. -/
def c5EndEvent : TouchEvent :=
  { touches := some [{ pageX := some 12, pageY := some 11, timeStamp := some 150 }],
    changedTouches := none, pageX := none, pageY := none, timeStamp := 150 }

/-- An event whose extracted touch lands exactly on the x = 0 screen edge. -/
def c10EdgeEvent : TouchEvent :=
  { touches := some [{ pageX := some 0, pageY := some 40, timeStamp := some 10 }],
    changedTouches := none, pageX := none, pageY := none, timeStamp := 10 }

end Evt

namespace Rend

/-- A node as the render-context manager walks it: its drawable primitive's
id, when it owns one, and its children. -/
inductive RNode : Type where
  | mk (glRect : Option Nat) (children : List RNode)

def RNode.glRect : RNode → Option Nat
  | .mk g _ => g

def RNode.childList : RNode → List RNode
  | .mk _ cs => cs

/-- `this.glRects.splice(this.glRects.indexOf(g), 1)`: removes the first
occurrence when present; when `indexOf` yields -1, `splice(-1, 1)` removes
the LAST element of the array. -/
def spliceRemove (l : List Nat) (g : Nat) : List Nat :=
  if g ∈ l then l.erase g else l.dropLast

/-- `RenderContextManager.getChildrenGlRects` (renderContextManager.js
lines 102-114) over a forest, carried state `(glRects, res)`: each node
owning a glRect has it spliced out of `glRects` and pushed onto `res`,
node before its subtree before its right siblings.  The source guard
`node !== this.layout.scrollview` compares references and excludes exactly
the node the recursion starts at, so the embedding skips the start node's
own glRect and runs the walk over its child forest with the guard
passing. -/
def collectGlRects : List RNode → List Nat × List Nat → List Nat × List Nat
  | [], st => st
  | RNode.mk g cs :: rest, st =>
      let st1 := match g with
        | some r => (spliceRemove st.1 r, st.2 ++ [r])
        | none => st
      collectGlRects rest (collectGlRects cs st1)

/-- The glRect ids owned by the nodes of a forest, in the depth-first order
`getChildrenGlRects` collects them. -/
def forestGlRects : List RNode → List Nat
  | [] => []
  | RNode.mk g cs :: rest =>
      (match g with | some r => [r] | none => []) ++ forestGlRects cs ++ forestGlRects rest

/-- `getChildrenGlRects(this.layout.scrollview, res)` with `res = []`:
the scrollview's own glRect is skipped by the reference guard; the walk
partitions its strict descendants' glRects out of `glRects`. -/
def getChildrenGlRects (scrollview : RNode) (glRects : List Nat) :
    List Nat × List Nat :=
  collectGlRects scrollview.childList (glRects, [])

/-- The render-context manager state the embedded operations touch. -/
structure Manager where
  glRects : List Nat
  scrollGlrects : List Nat
  hasSetup : Bool
  hasScroll : Bool
  scrollview : Option RNode
  scrollCanvas : Option Nat

/-- One observable step of the manager: main-surface GL setup and reset,
the batched main repaint with its exclusion list, and the scroll-surface
steps that only `setupScrollGl` performs (its own GL setup, the clear of
the pooled canvas, and binding that canvas as the scrollview glRect's
texture). -/
inductive RWork where
  | setupGlMain
  | setMainViewport
  | resetGl
  | repaintMain (prims excluded : List Nat)
  | scrollSetupGl
  | scrollSetViewport
  | scrollClear
  | scrollTexBind
deriving Repr, DecidableEq

/-- Steps that touch the scroll offscreen surface. -/
def RWork.isScrollSurfaceWork : RWork → Bool
  | .scrollSetupGl => true
  | .scrollSetViewport => true
  | .scrollClear => true
  | .scrollTexBind => true
  | _ => false

/-- `RenderContextManager.draw` (renderContextManager.js lines 119-150).
On the first call (or with `needInit`) it sets up the main GL surface and,
when the layout declares a scrollview, partitions the scrollview's strict
descendants' glRects into `scrollGlrects`; the call to `setupScrollGl` at
that point is commented out in the source, as is the scroll-region repaint,
so no scroll-surface work is issued.  Every call ends by resetting the main
surface and issuing one batched repaint of `glRects` with `scrollGlrects`
as the exclusion list. -/
def draw (m : Manager) (needInit : Bool) : Manager × List RWork :=
  if !m.hasSetup || needInit then
    let m1 := { m with hasSetup := true }
    let m2 := match m.scrollview with
      | some sv =>
          let r := getChildrenGlRects sv m1.glRects
          { m1 with hasScroll := true, glRects := r.1, scrollGlrects := r.2 }
      | none => m1
    (m2, [RWork.setupGlMain, RWork.setMainViewport, RWork.resetGl,
          RWork.repaintMain m2.glRects m2.scrollGlrects])
  else
    (m, [RWork.resetGl, RWork.repaintMain m.glRects m.scrollGlrects])

/-- The shared `canvasPool` module state: a stack; `push` appends, `pop`
takes from the end.  A released `scrollCanvas` can be `null`, so pooled
entries are optional. -/
def poolPop (pool : List (Option Nat)) (fresh : Nat) : List (Option Nat) × Nat :=
  match pool.getLast? with
  | some (some c) => (pool.dropLast, c)
  | some none => (pool.dropLast, fresh)
  | none => (pool, fresh)

/-- `RenderContextManager.release` (renderContextManager.js lines 95-100):
pushes the current `scrollCanvas` (whatever it is, even `null` after an
earlier release) onto the shared pool and nulls the field. -/
def release (m : Manager) (pool : List (Option Nat)) :
    Manager × List (Option Nat) :=
  ({ m with scrollCanvas := none }, pool ++ [m.scrollCanvas])

/-- `release` iterated. -/
def releaseN : Nat → Manager × List (Option Nat) → Manager × List (Option Nat)
  | 0, s => s
  | k + 1, s => releaseN k (release s.1 s.2)

/-- `RenderContextManager.setupScrollGl` (renderContextManager.js lines
65-80): take a pooled canvas (or a fresh one) when the field is empty, set
up GL on it, size it, set the viewport, clear its color and stencil
buffers, and only then bind it as the scrollview glRect's texture.  `fresh`
stands for the canvas `createCanvas()` would make. -/
def setupScrollGl (m : Manager) (pool : List (Option Nat)) (fresh : Nat) :
    Manager × List (Option Nat) × List RWork :=
  let s := match m.scrollCanvas with
    | none =>
        let r := poolPop pool fresh
        ({ m with scrollCanvas := some r.2 }, r.1)
    | some _ => (m, pool)
  (s.1, s.2,
   [RWork.scrollSetupGl, RWork.scrollSetViewport, RWork.scrollClear,
    RWork.scrollTexBind])

/-- The main collection with a set of primitive ids removed: what is left
of `glRects` once every id of `gs` has been spliced out. -/
def exceptRects (cur gs : List Nat) : List Nat :=
  cur.filter (fun g => decide (g ∉ gs))

/-- A concrete manager about to perform its first draw: the scrollview owns
glRect 0 and has one strict descendant owning glRect 1; glRect 2 belongs to
a node outside the scrollview. -/
def c8Manager : Manager :=
  { glRects := [0, 1, 2], scrollGlrects := [], hasSetup := false,
    hasScroll := false,
    scrollview := some (RNode.mk (some 0) [RNode.mk (some 1) []]),
    scrollCanvas := some 7 }

end Rend

/-! ## Theorems -/

/-- Claim C2: every scheduler tick first advances the running animations,
then runs reflow when the layout-dirty flag is set, else repaint when the
repaint flag is set; a single tick never runs both a reflow and a separate
repaint pass, and when neither flag is set the tick performs no layout,
draw or clear work and leaves the state exactly as the animation step left
it. -/
theorem C2_tick_dispatch (tween : Sched.Flags → Sched.Flags) (f : Sched.Flags) :
    ((Sched.tickerFunc tween f).2.head? = some Sched.TickWork.tweenUpdate)
    ∧ ¬ (Sched.TickWork.renderChildrenCall ∈ (Sched.tickerFunc tween f).2
          ∧ Sched.TickWork.repaintChildrenCall ∈ (Sched.tickerFunc tween f).2)
    ∧ ((tween f).isDirty = true →
        (Sched.tickerFunc tween f).2
          = Sched.TickWork.tweenUpdate :: (Sched.reflow (tween f)).2)
    ∧ ((tween f).isDirty = false → (tween f).isNeedRepaint = true →
        (Sched.tickerFunc tween f).2
          = Sched.TickWork.tweenUpdate :: (Sched.repaint (tween f)).2)
    ∧ ((tween f).isDirty = false → (tween f).isNeedRepaint = false →
        Sched.tickerFunc tween f = (tween f, [Sched.TickWork.tweenUpdate])) := by
  unfold Sched.tickerFunc
  rcases hd : (tween f).isDirty with _ | _ <;>
    rcases hr : (tween f).isNeedRepaint with _ | _ <;>
      simp [Sched.reflow, Sched.repaint, hd, hr]

/-- Claim C3 as stated is false on the code: a tick that takes the reflow
path with both flags set ends with isNeedRepaint still set, because
`reflow` writes only `this.isDirty = false` and never touches
`isNeedRepaint`. -/
theorem C3_reflow_keeps_repaint_flag_cex :
    ¬ ((Sched.tickerFunc id { isDirty := true, isNeedRepaint := true }).1.isNeedRepaint
        = false) := by decide

/-- Claim C3 amended: on the reflow path only the needsLayout flag
(isDirty) is cleared and needsRepaint is left unchanged; on the repaint
path only the needsRepaint flag is cleared (needsLayout, false on that
path, stays false). -/
theorem C3_flag_clearing (tween : Sched.Flags → Sched.Flags) (f : Sched.Flags) :
    ((tween f).isDirty = true →
      (Sched.tickerFunc tween f).1
        = { isDirty := false, isNeedRepaint := (tween f).isNeedRepaint })
    ∧ ((tween f).isDirty = false → (tween f).isNeedRepaint = true →
      (Sched.tickerFunc tween f).1 = { isDirty := false, isNeedRepaint := false }) := by
  unfold Sched.tickerFunc
  rcases hd : (tween f).isDirty with _ | _ <;>
    rcases hr : (tween f).isNeedRepaint with _ | _ <;>
      simp [Sched.reflow, Sched.repaint, hd, hr]

/-- Claim C7: assigning a new src to an Image node (whose setter starts an
async load whose callback emits the repaint event) sets only the repaint
flag and never the layout flag, and the following tick performs no
flexbox-solver invocation while still repainting; a geometry mutation sets
the layout flag and the following tick performs exactly one solver
invocation before its render. -/
theorem C7_dirty_flag_law (f : Sched.Flags) (node : Sched.ImageNode) (s : String)
    (hnew : s ≠ node.imgsrc) (hclean : f.isDirty = false) :
    ((Sched.applyImageSrcAssign f node s).1.isDirty = false)
    ∧ ((Sched.applyImageSrcAssign f node s).1.isNeedRepaint = true)
    ∧ ((Sched.tickerFunc id (Sched.applyImageSrcAssign f node s).1).2.count
          Sched.TickWork.computeLayoutCall = 0)
    ∧ (Sched.TickWork.repaintChildrenCall
        ∈ (Sched.tickerFunc id (Sched.applyImageSrcAssign f node s).1).2)
    ∧ ((Sched.geometryMutation f).isDirty = true)
    ∧ ((Sched.tickerFunc id (Sched.geometryMutation f)).2.count
          Sched.TickWork.computeLayoutCall = 1)
    ∧ (Sched.TickWork.renderChildrenCall
        ∈ (Sched.tickerFunc id (Sched.geometryMutation f)).2) := by
  simp only [Sched.applyImageSrcAssign, Sched.setSrc, Sched.onRepaintEvent,
    Sched.geometryMutation, if_pos hnew]
  unfold Sched.tickerFunc
  simp [Sched.reflow, Sched.repaint, hclean]

/-- Witness for claim C7 at a concrete input: a clean scheduler, an image
holding "a.png", and the assignment of "b.png"; the following tick performs
no solver invocation. -/
theorem C7_dirty_flag_witness :
    (Sched.tickerFunc id
        (Sched.applyImageSrcAssign { isDirty := false, isNeedRepaint := false }
          { imgsrc := "a.png" } "b.png").1).2.count Sched.TickWork.computeLayoutCall
      = 0 :=
  (C7_dirty_flag_law { isDirty := false, isNeedRepaint := false } { imgsrc := "a.png" }
    "b.png" (by decide) rfl).2.2.1

/-- The two layout passes composed: a forest whose parent has absolute
origin `(pax, pay)` satisfies the real-box invariant with parent real
origin `(vx + pax * scale, vy + pay * scale)`. -/
theorem Geom.realInv_of_passes (scale vx vy : ℚ) :
    ∀ (ns : List Geom.LayoutNode) (pax pay : ℚ),
      Geom.RealInv scale vx vy (vx + pax * scale) (vy + pay * scale)
        (Geom.updateRealLayout scale vx vy (Geom.layoutChildren pax pay ns))
  | [], _, _ => by
      simp [Geom.layoutChildren, Geom.updateRealLayout, Geom.RealInv]
  | Geom.LayoutNode.mk lb cs :: rest, pax, pay => by
      have hcs := Geom.realInv_of_passes scale vx vy cs (pax + lb.left) (pay + lb.top)
      have hrest := Geom.realInv_of_passes scale vx vy rest pax pay
      simp only [Geom.layoutChildren, Geom.updateRealLayout, Geom.RealInv]
      exact ⟨⟨by ring, by ring, trivial, trivial, trivial, trivial, hcs⟩, hrest⟩

/-- Claim C1 amended: after `reflow`, every node's real-pixel box equals
the viewport physical origin plus the node's absolute offset times the
viewport-to-renderport scale — equivalently, its parent's real-pixel origin
plus the node's parent-relative offset times that scale — its real size is
its solver size times the scale, and the root's real origin is the viewport
origin set by `updateViewPort`. -/
theorem C1_realbox_invariant (vp : Geom.Viewport)
    (rootStyleWidth rootStyleHeight : ℚ) (ns : List Geom.LayoutNode) :
    Geom.RealInv (vp.width / rootStyleWidth) vp.x vp.y
      (Geom.updateViewPort vp).realX (Geom.updateViewPort vp).realY
      (Geom.reflow (Geom.updateViewPort vp) rootStyleWidth rootStyleHeight ns) := by
  have h := Geom.realInv_of_passes (vp.width / rootStyleWidth) vp.x vp.y ns 0 0
  simpa [Geom.reflow, Geom.updateViewPort] using h

/-- Claim C1 as stated is false: in the concrete 3-level tree `c1Tree`
reflowed with scale 100/100 and viewport origin (7, 9), the grandchild's
real x is 22, while its parent's real origin (17) plus the grandchild's
absolute offset (15) times the scale plus the viewport origin x (7) is 39;
the stated formula counts the parent origin and the viewport origin
twice. -/
theorem C1_realbox_formula_cex :
    (Geom.firstBox (Geom.firstChildren (Geom.firstChildren Geom.c1Computed))).realX = 22
    ∧ (Geom.firstBox (Geom.firstChildren Geom.c1Computed)).realX = 17
    ∧ (Geom.firstBox (Geom.firstChildren (Geom.firstChildren Geom.c1Computed))).absoluteX
        = 15
    ∧ (Geom.firstBox (Geom.firstChildren (Geom.firstChildren Geom.c1Computed))).realX
        ≠ (Geom.firstBox (Geom.firstChildren Geom.c1Computed)).realX
          + (Geom.firstBox (Geom.firstChildren (Geom.firstChildren Geom.c1Computed))).absoluteX
            * ((100 : ℚ) / 100)
          + 7 := by
  norm_num [Geom.c1Computed, Geom.c1Tree, Geom.reflow, Geom.updateViewPort,
    Geom.layoutChildren, Geom.updateRealLayout, Geom.firstBox, Geom.firstChildren]

/-- Nothing is fully hit in an empty forest. -/
theorem Evt.not_fullyHit_nil {x y : ℚ} {n : Evt.Node} : ¬ Evt.FullyHit x y [] n := by
  intro h
  cases h with
  | base h1 _ => exact absurd h1 (List.not_mem_nil _)
  | step h1 _ _ => exact absurd h1 (List.not_mem_nil _)

/-- Growing the forest preserves full hits. -/
theorem Evt.FullyHit_mono {x y : ℚ} {cs cs' : List Evt.Node}
    (hsub : ∀ m, m ∈ cs → m ∈ cs') {n : Evt.Node}
    (h : Evt.FullyHit x y cs n) : Evt.FullyHit x y cs' n := by
  cases h with
  | base h1 h2 => exact .base (hsub _ h1) h2
  | step h1 h2 h3 => exact .step (hsub _ h1) h2 h3

/-- `getChildByPos` visits the forest in depth-first preorder: its result
is a sublist of the preorder listing, so ancestors always precede their
descendants in the collected list. -/
theorem Evt.getChildByPos_sublist (x y : ℚ) :
    ∀ cs : List Evt.Node, (Evt.getChildByPos x y cs).Sublist (Evt.preorder cs)
  | [] => by simp [Evt.getChildByPos, Evt.preorder]
  | Evt.Node.mk i b cs :: rest => by
      have h1 := Evt.getChildByPos_sublist x y cs
      have h2 := Evt.getChildByPos_sublist x y rest
      simp only [Evt.getChildByPos, Evt.preorder]
      by_cases hb : Evt.hitBox b x y = true
      · by_cases hcs : cs.length ≠ 0
        · rw [if_pos hb, if_pos hcs]
          simp only [List.cons_append]
          exact (h1.append h2).cons₂ _
        · rw [if_pos hb, if_neg hcs]
          simp only [List.cons_append, List.nil_append]
          exact ((h2.trans (List.sublist_append_right _ _)).cons₂ _)
      · rw [if_neg hb]
        simp only [List.nil_append]
        exact ((h2.trans (List.sublist_append_right _ _)).cons _)

/-- `getChildByPos` collects exactly the fully hit nodes: a node is in the
result precisely when its own box and every ancestor's box contain the
point. -/
theorem Evt.mem_getChildByPos_iff (x y : ℚ) :
    ∀ (cs : List Evt.Node) (n : Evt.Node),
      n ∈ Evt.getChildByPos x y cs ↔ Evt.FullyHit x y cs n
  | [], n => by
      simp only [Evt.getChildByPos]
      exact ⟨fun h => absurd h (List.not_mem_nil _),
             fun h => absurd h Evt.not_fullyHit_nil⟩
  | Evt.Node.mk i b ccs :: rest, n => by
      constructor
      · intro h
        simp only [Evt.getChildByPos] at h
        rcases List.mem_append.mp h with h1 | h2
        · by_cases hb : Evt.hitBox b x y = true
          · rw [if_pos hb] at h1
            rcases List.mem_cons.mp h1 with rfl | hmem
            · exact .base (List.mem_cons_self _ _) hb
            · by_cases hl : ccs.length ≠ 0
              · rw [if_pos hl] at hmem
                exact .step (List.mem_cons_self _ _) hb
                  ((Evt.mem_getChildByPos_iff x y ccs n).mp hmem)
              · rw [if_neg hl] at hmem
                exact absurd hmem (List.not_mem_nil _)
          · rw [if_neg hb] at h1
            exact absurd h1 (List.not_mem_nil _)
        · exact Evt.FullyHit_mono (fun m hm => List.mem_cons_of_mem _ hm)
            ((Evt.mem_getChildByPos_iff x y rest n).mp h2)
      · intro h
        cases h with
        | base hmem hhit =>
            rcases List.mem_cons.mp hmem with rfl | hr
            · simp only [Evt.Node.box] at hhit
              simp only [Evt.getChildByPos]
              apply List.mem_append_left
              rw [if_pos hhit]
              exact List.mem_cons_self _ _
            · have hrec := (Evt.mem_getChildByPos_iff x y rest n).mpr (.base hr hhit)
              simp only [Evt.getChildByPos]
              exact List.mem_append_right _ hrec
        | step hmem hhit hfh =>
            rcases List.mem_cons.mp hmem with rfl | hr
            · simp only [Evt.Node.box] at hhit
              simp only [Evt.Node.childList] at hfh
              have hl : ccs.length ≠ 0 := by
                cases hcc : ccs with
                | nil =>
                    rw [hcc] at hfh
                    exact absurd hfh Evt.not_fullyHit_nil
                | cons a as => simp
              have hmemn := (Evt.mem_getChildByPos_iff x y ccs n).mpr hfh
              simp only [Evt.getChildByPos]
              apply List.mem_append_left
              rw [if_pos hhit, if_pos hl]
              exact List.mem_cons_of_mem _ hmemn
            · have hrec := (Evt.mem_getChildByPos_iff x y rest n).mpr (.step hr hhit hfh)
              simp only [Evt.getChildByPos]
              exact List.mem_append_right _ hrec

/-- Claim C4 amended: the router's depth-first search collects, in
depth-first order with ancestors before descendants, exactly the nodes
whose own box AND every ancestor's box contain the point (the search never
descends into a node whose box misses the point); the last element is the
delivery target and the root is the fallback; on the spec's example tree,
dispatch at (15,15) targets B (id 2), at (50,50) targets A (id 1), and at
(500,500) targets the root (id 0). -/
theorem C4_hit_dispatch :
    (∀ (x y : ℚ) (cs : List Evt.Node),
      (Evt.getChildByPos x y cs).Sublist (Evt.preorder cs))
    ∧ (∀ (x y : ℚ) (cs : List Evt.Node) (n : Evt.Node),
        n ∈ Evt.getChildByPos x y cs ↔ Evt.FullyHit x y cs n)
    ∧ Evt.dispatchTarget Evt.exampleLayout 15 15 = 2
    ∧ Evt.dispatchTarget Evt.exampleLayout 50 50 = 1
    ∧ Evt.dispatchTarget Evt.exampleLayout 500 500 = 0 := by
  refine ⟨fun x y cs => Evt.getChildByPos_sublist x y cs,
          fun x y cs n => Evt.mem_getChildByPos_iff x y cs n, ?_, ?_, ?_⟩ <;>
    norm_num [Evt.dispatchTarget, Evt.exampleLayout, Evt.getChildByPos,
      Evt.hitBox, Evt.Node.id]

/-- Claim C4 as stated is false: in `c4Forest`, node 2's box (0,0,100,100)
contains (15,15), yet the collected list is empty — its parent's box
(200,200,10,10) misses the point, so the search never reaches node 2 — and
the dispatch target falls back to the root (id 0) instead of node 2. -/
theorem C4_hit_collection_cex :
    Evt.hitBox { realX := 0, realY := 0, width := 100, height := 100 } 15 15 = true
    ∧ Evt.getChildByPos 15 15 Evt.c4Forest = []
    ∧ Evt.dispatchTarget
        { id := 0, children := Evt.c4Forest,
          touchMsg := { touchstart := none, touchend := none } } 15 15 = 0 := by
  norm_num [Evt.hitBox, Evt.getChildByPos, Evt.c4Forest, Evt.dispatchTarget]

/-- Claim C10: when the extracted touch point of an incoming event has a
missing or zero pageX or pageY, the handler returns at once: no hit test
is consulted for a dispatch, nothing is emitted on any node, and the
layout state — the pending gesture record included — is unchanged. -/
theorem C10_zero_coordinate_guard (distT timeT : ℚ) (en : Evt.EventName)
    (l : Evt.EvtLayout) (e : Evt.TouchEvent)
    (h : Evt.falsyQ (Evt.extractTouch e).pageX = true
        ∨ Evt.falsyQ (Evt.extractTouch e).pageY = true) :
    Evt.touchEventHandler distT timeT en l e = (l, []) := by
  unfold Evt.touchEventHandler
  rcases h with h | h <;> simp [h]

/-- Witness for claim C10: a touchstart landing exactly on the x = 0 edge
of the screen is dropped — the state is unchanged and nothing is
emitted. -/
theorem C10_zero_coordinate_witness :
    Evt.touchEventHandler 30 300 Evt.EventName.touchstart Evt.exampleLayout
      Evt.c10EdgeEvent = (Evt.exampleLayout, []) :=
  C10_zero_coordinate_guard 30 300 Evt.EventName.touchstart Evt.exampleLayout
    Evt.c10EdgeEvent
    (Or.inl (by norm_num [Evt.extractTouch, Evt.c10EdgeEvent, Evt.falsyQ]))

/-- Claim C6 amended: a touchcancel emits no click and leaves the pending
gesture record untouched — but it does not clear it: the recorded
touchstart/touchend survive every event, so a later touchend can still
pair with a touchstart of an earlier, already-resolved gesture. -/
theorem C6_touchcancel_behavior (distT timeT : ℚ) (l : Evt.EvtLayout)
    (e : Evt.TouchEvent) :
    ((Evt.touchEventHandler distT timeT Evt.EventName.touchcancel l e).1.touchMsg
        = l.touchMsg)
    ∧ ∀ p ∈ (Evt.touchEventHandler distT timeT Evt.EventName.touchcancel l e).2,
        p.2 ≠ Evt.EmitName.click := by
  unfold Evt.touchEventHandler
  by_cases hg : (Evt.falsyQ (Evt.extractTouch e).pageX
      || Evt.falsyQ (Evt.extractTouch e).pageY) = true
  · simp [hg]
  · simp [hg, Evt.EventName.toEmit]

/-- Claim C6 as stated is false: after a touchcancel the recorded
touchstart of `c6Layout` is still in place (the handler never writes
`touchMsg` on touchcancel), and a touchend arriving later pairs with that
pre-cancel touchstart and synthesizes a click. -/
theorem C6_touchcancel_cex :
    ((Evt.touchEventHandler 30 300 Evt.EventName.touchcancel Evt.c6Layout
        Evt.c6CancelEvent).1.touchMsg.touchstart
      = some { pageX := 10, pageY := 10, timeStamp := 0 })
    ∧ ((Evt.touchEventHandler 30 300 Evt.EventName.touchend
          (Evt.touchEventHandler 30 300 Evt.EventName.touchcancel Evt.c6Layout
            Evt.c6CancelEvent).1 Evt.c6EndEvent).2
        = [(1, Evt.EmitName.touchend), (1, Evt.EmitName.click)]) := by
  norm_num +decide [Evt.touchEventHandler, Evt.extractTouch, Evt.falsyQ,
    Evt.dispatchTarget, Evt.getChildByPos, Evt.hitBox, Evt.isClick,
    Evt.c6Layout, Evt.c6CancelEvent, Evt.c6EndEvent, Evt.EventName.toEmit,
    Evt.Node.id, abs_of_nonneg, abs_of_nonpos]

/-- Claim C5: a dispatched touchend whose recorded touchstart pairing is
within the configured thresholds (the isClick window) emits the primary
touchend and then a click, both on the same target; when the pair is not
within the window only the touchend is emitted — in particular, whenever
the elapsed time reaches the time threshold the pair is never a click. -/
theorem C5_click_synthesis (distT timeT : ℚ) (l : Evt.EvtLayout)
    (e : Evt.TouchEvent)
    (hx : Evt.falsyQ (Evt.extractTouch e).pageX = false)
    (hy : Evt.falsyQ (Evt.extractTouch e).pageY = false) :
    (Evt.isClick distT timeT
        (Evt.touchEventHandler distT timeT Evt.EventName.touchend l e).1.touchMsg
          = true →
      (Evt.touchEventHandler distT timeT Evt.EventName.touchend l e).2
        = [(Evt.dispatchTarget l ((Evt.extractTouch e).pageX.getD 0)
              ((Evt.extractTouch e).pageY.getD 0), Evt.EmitName.touchend),
           (Evt.dispatchTarget l ((Evt.extractTouch e).pageX.getD 0)
              ((Evt.extractTouch e).pageY.getD 0), Evt.EmitName.click)])
    ∧ (Evt.isClick distT timeT
        (Evt.touchEventHandler distT timeT Evt.EventName.touchend l e).1.touchMsg
          = false →
      (Evt.touchEventHandler distT timeT Evt.EventName.touchend l e).2
        = [(Evt.dispatchTarget l ((Evt.extractTouch e).pageX.getD 0)
              ((Evt.extractTouch e).pageY.getD 0), Evt.EmitName.touchend)])
    ∧ (∀ s en,
        (Evt.touchEventHandler distT timeT Evt.EventName.touchend l e).1.touchMsg
          = { touchstart := some s, touchend := some en } →
        timeT ≤ en.timeStamp - s.timeStamp →
        Evt.isClick distT timeT
          (Evt.touchEventHandler distT timeT Evt.EventName.touchend l e).1.touchMsg
            = false) := by
  have hg : (Evt.falsyQ (Evt.extractTouch e).pageX
      || Evt.falsyQ (Evt.extractTouch e).pageY) = false := by
    simp [hx, hy]
  refine ⟨?_, ?_, ?_⟩
  · intro hc
    simp +decide [Evt.touchEventHandler, hg, Evt.EventName.toEmit] at hc ⊢
    simp [hc]
  · intro hc
    simp +decide [Evt.touchEventHandler, hg, Evt.EventName.toEmit] at hc ⊢
    simp [hc]
  · intro s en hmsg hle
    simp +decide [Evt.touchEventHandler, hg] at hmsg ⊢
    obtain ⟨h1, h2⟩ := hmsg
    rw [h1, h2]
    simp only [Evt.isClick]
    have hdec : decide (en.timeStamp - s.timeStamp < timeT) = false :=
      decide_eq_false (not_lt.mpr hle)
    rw [hdec, Bool.and_false]

/-- Witness for claim C5 at the spec's concrete gesture: a recorded
touchstart at (10,10), time 0, followed by a touchend at (12,11), time
150, against thresholds 30 and 300: the handler emits touchend and then
click, both on node 1. -/
theorem C5_click_witness :
    (Evt.touchEventHandler 30 300 Evt.EventName.touchend Evt.c5Layout
        Evt.c5EndEvent).2
      = [(1, Evt.EmitName.touchend), (1, Evt.EmitName.click)] := by
  have h := C5_click_synthesis 30 300 Evt.c5Layout Evt.c5EndEvent
    (by norm_num [Evt.falsyQ, Evt.extractTouch, Evt.c5EndEvent])
    (by norm_num [Evt.falsyQ, Evt.extractTouch, Evt.c5EndEvent])
  have hc : Evt.isClick 30 300
      (Evt.touchEventHandler 30 300 Evt.EventName.touchend Evt.c5Layout
        Evt.c5EndEvent).1.touchMsg = true := by
    norm_num +decide [Evt.touchEventHandler, Evt.extractTouch, Evt.falsyQ,
      Evt.isClick, Evt.c5Layout, Evt.c5EndEvent, Evt.dispatchTarget,
      Evt.getChildByPos, Evt.hitBox]
  rw [h.1 hc]
  norm_num [Evt.dispatchTarget, Evt.extractTouch, Evt.c5EndEvent, Evt.c5Layout,
    Evt.getChildByPos, Evt.hitBox, Evt.Node.id]

/-- Removing nothing leaves the collection unchanged. -/
theorem Rend.exceptRects_nil (cur : List Nat) : Rend.exceptRects cur [] = cur := by
  simp [Rend.exceptRects]

/-- Membership in the filtered collection. -/
theorem Rend.mem_exceptRects {a : Nat} {cur gs : List Nat} :
    a ∈ Rend.exceptRects cur gs ↔ a ∈ cur ∧ a ∉ gs := by
  simp [Rend.exceptRects]

/-- Removing two groups one after the other removes their union. -/
theorem Rend.exceptRects_exceptRects (cur gs1 gs2 : List Nat) :
    Rend.exceptRects (Rend.exceptRects cur gs1) gs2
      = Rend.exceptRects cur (gs1 ++ gs2) := by
  simp only [Rend.exceptRects, List.filter_filter]
  apply List.filter_congr
  intro a _
  by_cases h1 : a ∈ gs1 <;> by_cases h2 : a ∈ gs2 <;> simp [h1, h2]

/-- On a duplicate-free collection the splice of a present id is the
filter that drops it. -/
theorem Rend.spliceRemove_eq_exceptRects {cur : List Nat} (h : cur.Nodup)
    {r : Nat} (hr : r ∈ cur) :
    Rend.spliceRemove cur r = Rend.exceptRects cur [r] := by
  rw [Rend.spliceRemove, if_pos hr, List.Nodup.erase_eq_filter h]
  apply List.filter_congr
  intro a _
  by_cases ha : a = r <;> simp [ha]

/-- `getChildrenGlRects`, run over a forest whose glRect ids are all
present exactly once in the duplicate-free main collection, moves exactly
the forest's ids, in depth-first order, from the collection to the result
accumulator. -/
theorem Rend.collectGlRects_spec :
    ∀ (ns : List Rend.RNode) (cur acc : List Nat),
      cur.Nodup →
      (Rend.forestGlRects ns).Nodup →
      (∀ g ∈ Rend.forestGlRects ns, g ∈ cur) →
      Rend.collectGlRects ns (cur, acc)
        = (Rend.exceptRects cur (Rend.forestGlRects ns),
           acc ++ Rend.forestGlRects ns)
  | [], cur, acc, _, _, _ => by
      simp [Rend.collectGlRects, Rend.forestGlRects, Rend.exceptRects_nil]
  | Rend.RNode.mk g cs :: rest, cur, acc, hcur, hnd, hmem => by
      match g with
      | some r =>
          simp only [Rend.forestGlRects] at hnd hmem
          have hr : r ∈ cur := hmem r (by simp)
          have hndc : (r :: (Rend.forestGlRects cs ++ Rend.forestGlRects rest)).Nodup := by
            simpa using hnd
          rw [List.nodup_cons] at hndc
          obtain ⟨hrnot, hndcr⟩ := hndc
          rw [List.nodup_append] at hndcr
          obtain ⟨hndcs, hndrest, hdisj⟩ := hndcr
          have hcur1 : (Rend.exceptRects cur [r]).Nodup := hcur.filter _
          have hmemcs : ∀ a ∈ Rend.forestGlRects cs, a ∈ Rend.exceptRects cur [r] := by
            intro a ha
            rw [Rend.mem_exceptRects]
            refine ⟨hmem a (by simp [ha]), ?_⟩
            simp only [List.mem_singleton]
            intro hEq
            exact hrnot (by simpa [hEq] using List.mem_append_left _ ha)
          have hcur2 : (Rend.exceptRects cur ([r] ++ Rend.forestGlRects cs)).Nodup :=
            hcur.filter _
          have hmemrest : ∀ a ∈ Rend.forestGlRects rest,
              a ∈ Rend.exceptRects cur ([r] ++ Rend.forestGlRects cs) := by
            intro a ha
            rw [Rend.mem_exceptRects]
            refine ⟨hmem a (by simp [ha]), ?_⟩
            simp only [List.mem_append, List.mem_singleton, not_or]
            constructor
            · intro hEq
              exact hrnot (by simpa [hEq] using List.mem_append_right _ ha)
            · intro hin
              exact hdisj hin ha
          simp only [Rend.collectGlRects]
          rw [Rend.spliceRemove_eq_exceptRects hcur hr]
          rw [Rend.collectGlRects_spec cs (Rend.exceptRects cur [r]) (acc ++ [r])
            hcur1 hndcs hmemcs]
          rw [Rend.exceptRects_exceptRects]
          rw [Rend.collectGlRects_spec rest _ _ hcur2 hndrest hmemrest]
          rw [Rend.exceptRects_exceptRects]
          simp [Rend.forestGlRects]
      | none =>
          simp only [Rend.forestGlRects] at hnd hmem
          have hndcr : (Rend.forestGlRects cs ++ Rend.forestGlRects rest).Nodup := by
            simpa using hnd
          rw [List.nodup_append] at hndcr
          obtain ⟨hndcs, hndrest, hdisj⟩ := hndcr
          have hmemcs : ∀ a ∈ Rend.forestGlRects cs, a ∈ cur := by
            intro a ha
            exact hmem a (by simp [ha])
          have hcur2 : (Rend.exceptRects cur (Rend.forestGlRects cs)).Nodup :=
            hcur.filter _
          have hmemrest : ∀ a ∈ Rend.forestGlRects rest,
              a ∈ Rend.exceptRects cur (Rend.forestGlRects cs) := by
            intro a ha
            rw [Rend.mem_exceptRects]
            exact ⟨hmem a (by simp [ha]), fun hin => hdisj hin ha⟩
          simp only [Rend.collectGlRects]
          rw [Rend.collectGlRects_spec cs cur acc hcur hndcs hmemcs]
          rw [Rend.collectGlRects_spec rest _ _ hcur2 hndrest hmemrest]
          rw [Rend.exceptRects_exceptRects]
          simp [Rend.forestGlRects]

/-- Claim C8 as stated is false: on the first draw of `c8Manager`, which
declares a scrollview, the strict descendant's primitive (glRect 1) is
partitioned into the dedicated set and excluded from the main repaint, but
the draw issues no scroll-surface work at all — the `setupScrollGl`
invocation and the scroll-region repaint are commented out in the source —
so the dedicated set is not rendered onto a pooled offscreen surface and no
textured primitive of it is drawn into the main surface. -/
theorem C8_offscreen_render_cex :
    ((Rend.draw Rend.c8Manager false).1.scrollGlrects = [1])
    ∧ ((Rend.draw Rend.c8Manager false).2
        = [Rend.RWork.setupGlMain, Rend.RWork.setMainViewport, Rend.RWork.resetGl,
           Rend.RWork.repaintMain [0, 2] [1]])
    ∧ ((Rend.draw Rend.c8Manager false).2.all
        (fun w => ! w.isScrollSurfaceWork) = true) := by
  norm_num [Rend.draw, Rend.c8Manager, Rend.getChildrenGlRects,
    Rend.collectGlRects, Rend.spliceRemove, Rend.RNode.childList,
    Rend.RWork.isScrollSurfaceWork]

/-- Claim C8 amended: on the first draw, when the layout declares a
scrollview whose strict descendants' glRects each occur once in the
duplicate-free main collection, exactly those descendant glRects are moved,
in depth-first order, out of the main collection into the dedicated set
(the scrollview's own glRect stays in the main set), and the first draw and
every subsequent draw issue exactly one batched main repaint whose
exclusion list is exactly that dedicated set; the rendering of the
dedicated set onto a pooled offscreen surface and its draw-back as a
textured primitive are present in the source (`setupScrollGl`) but not
invoked by `draw`. -/
theorem C8_scroll_partition (m : Rend.Manager) (sv : Rend.RNode)
    (hsetup : m.hasSetup = false)
    (hsv : m.scrollview = some sv)
    (hnodupCur : m.glRects.Nodup)
    (hnodupDesc : (Rend.forestGlRects sv.childList).Nodup)
    (hmem : ∀ g ∈ Rend.forestGlRects sv.childList, g ∈ m.glRects) :
    ((Rend.draw m false).1.scrollGlrects = Rend.forestGlRects sv.childList)
    ∧ ((Rend.draw m false).1.glRects
        = Rend.exceptRects m.glRects (Rend.forestGlRects sv.childList))
    ∧ ((Rend.draw m false).1.hasScroll = true)
    ∧ (∀ g, sv.glRect = some g → g ∉ Rend.forestGlRects sv.childList →
        g ∈ m.glRects → g ∈ (Rend.draw m false).1.glRects)
    ∧ ((Rend.draw m false).2
        = [Rend.RWork.setupGlMain, Rend.RWork.setMainViewport, Rend.RWork.resetGl,
           Rend.RWork.repaintMain (Rend.draw m false).1.glRects
             (Rend.draw m false).1.scrollGlrects])
    ∧ ((Rend.draw (Rend.draw m false).1 false).2
        = [Rend.RWork.resetGl,
           Rend.RWork.repaintMain (Rend.draw m false).1.glRects
             (Rend.draw m false).1.scrollGlrects]) := by
  have hcollect := Rend.collectGlRects_spec sv.childList m.glRects []
    hnodupCur hnodupDesc hmem
  have hdraw : Rend.draw m false
      = (Rend.Manager.mk
           (Rend.exceptRects m.glRects (Rend.forestGlRects sv.childList))
           (Rend.forestGlRects sv.childList) true true m.scrollview m.scrollCanvas,
         [Rend.RWork.setupGlMain, Rend.RWork.setMainViewport, Rend.RWork.resetGl,
          Rend.RWork.repaintMain
            (Rend.exceptRects m.glRects (Rend.forestGlRects sv.childList))
            (Rend.forestGlRects sv.childList)]) := by
    rw [Rend.draw]
    rw [hsetup]
    simp only [Bool.not_false, Bool.true_or, if_true, hsv]
    rw [Rend.getChildrenGlRects, hcollect]
    simp
  rw [hdraw]
  refine ⟨rfl, rfl, rfl, ?_, rfl, ?_⟩
  · intro g _ hnotdesc hin
    exact Rend.mem_exceptRects.mpr ⟨hin, hnotdesc⟩
  · rw [Rend.draw]
    simp

/-- Witness for claim C8 at the concrete manager `c8Manager`: the dedicated
set after the first draw is exactly the strict-descendant glRect list of
its scrollview. -/
theorem C8_scroll_partition_witness :
    (Rend.draw Rend.c8Manager false).1.scrollGlrects
      = Rend.forestGlRects
          (Rend.RNode.mk (some 0) [Rend.RNode.mk (some 1) []]).childList :=
  (C8_scroll_partition Rend.c8Manager
    (Rend.RNode.mk (some 0) [Rend.RNode.mk (some 1) []])
    rfl rfl (by norm_num [Rend.c8Manager])
    (by norm_num [Rend.forestGlRects, Rend.RNode.childList])
    (by norm_num [Rend.forestGlRects, Rend.RNode.childList, Rend.c8Manager])).1

/-- Releasing a manager whose scroll canvas is already gone only pushes
null entries. -/
theorem Rend.releaseN_none (j : Nat) :
    ∀ (m : Rend.Manager) (p : List (Option Nat)), m.scrollCanvas = none →
      (Rend.releaseN j (m, p)).2 = p ++ List.replicate j none
      ∧ (Rend.releaseN j (m, p)).1.scrollCanvas = none := by
  induction j with
  | zero => intro m p h; simpa [Rend.releaseN] using h
  | succ n ih =>
      intro m p h
      have hstep : Rend.releaseN (n + 1) (m, p)
          = Rend.releaseN n ({ m with scrollCanvas := none }, p ++ [m.scrollCanvas]) := by
        rw [Rend.releaseN, Rend.release]
      rw [hstep, h]
      have := ih { m with scrollCanvas := none } (p ++ [none]) rfl
      rw [this.1]
      refine ⟨?_, this.2⟩
      simp [List.replicate_succ]

/-- A block of pushed-back null entries holds no surface. -/
theorem Rend.countP_replicate_none (j : Nat) :
    (List.replicate j (none : Option Nat)).countP (fun o => o.isSome) = 0 := by
  induction j with
  | zero => simp
  | succ n ih => simp [List.replicate_succ, List.countP_cons, ih]

/-- Claim C9: releasing a render context holding a scroll surface pushes
exactly that one surface onto the shared pool, and releasing it again any
number of times only appends null entries — exactly one surface is ever
returned, no leak and no double-free; popping such a null entry later falls
back to a fresh canvas and leaves the rest of the pool intact; and
`setupScrollGl` — the only routine that prepares a (possibly pooled) scroll
surface for use — clears the surface strictly before binding it as the
scrollview's texture, never assuming it blank. -/
theorem C9_pool_discipline (m : Rend.Manager) (pool : List (Option Nat))
    (c : Nat) (k : Nat) (hc : m.scrollCanvas = some c) (hk : 1 ≤ k) :
    ((Rend.releaseN k (m, pool)).2
        = pool ++ some c :: List.replicate (k - 1) none)
    ∧ (((Rend.releaseN k (m, pool)).2.drop pool.length).countP
        (fun o => o.isSome) = 1)
    ∧ ((Rend.releaseN k (m, pool)).1.scrollCanvas = none)
    ∧ (∀ (m2 : Rend.Manager) (pool2 : List (Option Nat)) (fresh : Nat),
        ((Rend.setupScrollGl m2 pool2 fresh).2.2.indexOf Rend.RWork.scrollClear
          < (Rend.setupScrollGl m2 pool2 fresh).2.2.indexOf Rend.RWork.scrollTexBind)
        ∧ Rend.RWork.scrollClear ∈ (Rend.setupScrollGl m2 pool2 fresh).2.2)
    ∧ (∀ (pool3 : List (Option Nat)) (fresh : Nat),
        Rend.poolPop (pool3 ++ [none]) fresh = (pool3, fresh)) := by
  obtain ⟨j, rfl⟩ : ∃ j, k = j + 1 := ⟨k - 1, (Nat.succ_pred_eq_of_pos hk).symm⟩
  have hstep : Rend.releaseN (j + 1) (m, pool)
      = Rend.releaseN j ({ m with scrollCanvas := none }, pool ++ [m.scrollCanvas]) := by
    rw [Rend.releaseN, Rend.release]
  have hrest := Rend.releaseN_none j { m with scrollCanvas := none }
    (pool ++ [some c]) rfl
  refine ⟨?_, ?_, ?_, ?_, ?_⟩
  · rw [hstep, hc, hrest.1]
    simp
  · rw [hstep, hc, hrest.1]
    rw [List.append_assoc, List.drop_left]
    simp [List.countP_cons, Rend.countP_replicate_none]
  · rw [hstep, hc]
    exact hrest.2
  · intro m2 pool2 fresh
    cases hm2 : m2.scrollCanvas <;>
      simp [Rend.setupScrollGl, hm2, List.indexOf_cons, Rend.poolPop]
  · intro pool3 fresh
    rw [Rend.poolPop]
    simp

/-- Witness for claim C9 at a concrete input: releasing `c8Manager` (scroll
canvas 7) twice into an empty pool yields exactly the surface followed by
one null entry. -/
theorem C9_pool_witness :
    (Rend.releaseN 2 (Rend.c8Manager, [])).2 = [some 7, none] := by
  have h := C9_pool_discipline Rend.c8Manager [] 7 2 rfl (by norm_num)
  simpa using h.1
